import Mathlib

/-!
Verification of the OneDiffusion configuration layer
(`src/sdserver/_configuration.py` and
`src/onediffusion/utils/import_utils.py`) against its natural-language
specification.  Python dictionaries are embedded as association lists with
distinct keys, Python values as the inductive `PyVal`, and each Python
function under scrutiny as an executable Lean function that follows the
source line by line.  Raised exceptions are embedded as `Except` errors.
-/

set_option autoImplicit false

/-- Embedding of the Python values that flow through the configuration
layer: `None`, booleans, integers, strings, lists and string-keyed
dictionaries. -/
inductive PyVal where
  | none_ : PyVal
  | bool (b : Bool) : PyVal
  | int (n : Int) : PyVal
  | str (s : String) : PyVal
  | list (xs : List PyVal) : PyVal
  | dict (entries : List (String × PyVal)) : PyVal

/-- Entries of a Python dictionary (insertion-ordered key/value pairs). -/
abbrev PyDict := List (String × PyVal)

/-- First value stored under key `k` (Python `d[k]` / `d.get(k)`). -/
def lookupD (l : PyDict) (k : String) : Option PyVal :=
  match l with
  | [] => none
  | (k', v) :: rest => if k' = k then some v else lookupD rest k

/-- The keys of a dictionary, in order. -/
def keysD (l : PyDict) : List String := l.map (·.1)

/-- A dictionary is well formed when its keys are pairwise distinct,
as Python dictionaries always are. -/
def NodupKeys (l : PyDict) : Prop := (keysD l).Nodup

instance decidableNodupKeys (l : PyDict) : Decidable (NodupKeys l) := by
  unfold NodupKeys
  infer_instance

/-- Python `d[k] = v`: replace the binding of `k` (dropping the old one)
and record the new value. -/
def updateD (l : PyDict) (k : String) (v : PyVal) : PyDict :=
  (l.filter (fun kv => kv.1 ≠ k)) ++ [(k, v)]

/-- Apply a sequence of assignments `d[k] = v` in order. -/
def updateAll (base : PyDict) (l : PyDict) : PyDict :=
  l.foldl (fun acc kv => updateD acc kv.1 kv.2) base

@[simp] theorem lookupD_nil (k : String) : lookupD [] k = none := rfl

@[simp] theorem lookupD_cons (k' k : String) (v : PyVal) (rest : PyDict) :
    lookupD ((k', v) :: rest) k = if k' = k then some v else lookupD rest k := rfl

@[simp] theorem keysD_nil : keysD [] = [] := rfl

@[simp] theorem keysD_cons (kv : String × PyVal) (rest : PyDict) :
    keysD (kv :: rest) = kv.1 :: keysD rest := rfl

theorem lookupD_append_left {a : PyDict} {k : String} {v : PyVal} (b : PyDict)
    (h : lookupD a k = some v) : lookupD (a ++ b) k = some v := by
  induction a with
  | nil => simp at h
  | cons kv rest ih =>
    obtain ⟨k', v'⟩ := kv
    by_cases hk : k' = k
    · subst hk
      simp at h
      simp [h]
    · simp only [lookupD_cons, hk, if_false] at h
      simp [hk, ih h]

theorem lookupD_append_right {a : PyDict} {k : String} (b : PyDict)
    (h : lookupD a k = none) : lookupD (a ++ b) k = lookupD b k := by
  induction a with
  | nil => simp
  | cons kv rest ih =>
    obtain ⟨k', v'⟩ := kv
    by_cases hk : k' = k
    · simp [hk] at h
    · simp only [lookupD_cons, hk, if_false] at h
      simp [hk, ih h]

theorem lookupD_eq_none_of_not_mem (l : PyDict) (k : String) (h : k ∉ keysD l) :
    lookupD l k = none := by
  induction l with
  | nil => rfl
  | cons kv rest ih =>
    obtain ⟨k', v⟩ := kv
    simp only [keysD_cons, List.mem_cons] at h
    push_neg at h
    simp [Ne.symm h.1, ih h.2]

theorem mem_keysD_of_lookupD (l : PyDict) (k : String) (v : PyVal)
    (h : lookupD l k = some v) : k ∈ keysD l := by
  induction l with
  | nil => simp at h
  | cons kv rest ih =>
    obtain ⟨k', v'⟩ := kv
    by_cases hk : k' = k
    · simp [hk]
    · simp only [lookupD_cons, hk, if_false] at h
      simp [ih h]

theorem lookupD_isSome_iff_mem (l : PyDict) (k : String) :
    (lookupD l k).isSome ↔ k ∈ keysD l := by
  constructor
  · intro h
    obtain ⟨v, hv⟩ := Option.isSome_iff_exists.mp h
    exact mem_keysD_of_lookupD l k v hv
  · intro h
    induction l with
    | nil => simp at h
    | cons kv rest ih =>
      obtain ⟨k', v'⟩ := kv
      by_cases hk : k' = k
      · simp [hk]
      · simp only [keysD_cons, List.mem_cons] at h
        rcases h with h | h
        · exact absurd h.symm hk
        · simpa [hk] using ih h

/-- Filtering out one key commutes with lookup of any key. -/
theorem lookupD_filter_ne (l : PyDict) (k k' : String) :
    lookupD (l.filter (fun kv => kv.1 ≠ k)) k' = if k' = k then none else lookupD l k' := by
  induction l with
  | nil => by_cases h : k' = k <;> simp [h]
  | cons kv rest ih =>
    obtain ⟨k0, v0⟩ := kv
    by_cases h0 : k0 = k
    · subst h0
      rw [List.filter_cons_of_neg (by simp), ih]
      by_cases h : k' = k0
      · simp [h]
      · simp [h, Ne.symm h]
    · rw [List.filter_cons_of_pos (by simp [h0]), lookupD_cons, ih]
      by_cases h : k0 = k'
      · subst h
        simp [h0]
      · simp [h]

theorem lookupD_updateD (l : PyDict) (k k' : String) (v : PyVal) :
    lookupD (updateD l k v) k' = if k = k' then some v else lookupD l k' := by
  unfold updateD
  have hfilter := lookupD_filter_ne l k k'
  by_cases h : k = k'
  · subst h
    rw [if_pos rfl] at hfilter
    rw [lookupD_append_right _ hfilter]
    simp
  · have h' : ¬ (k' = k) := fun hbad => h hbad.symm
    rw [if_neg h'] at hfilter
    cases hl : lookupD l k' with
    | some w =>
      rw [hl] at hfilter
      rw [lookupD_append_left _ hfilter]
      simp [h]
    | none =>
      rw [hl] at hfilter
      rw [lookupD_append_right _ hfilter]
      simp [Ne.symm h]

theorem nodupKeys_filter (l : PyDict) (p : String × PyVal → Bool) (h : NodupKeys l) :
    NodupKeys (l.filter p) := by
  unfold NodupKeys keysD at *
  exact List.Nodup.sublist (List.Sublist.map _ (List.filter_sublist l)) h

/-- Filtering on an arbitrary entry predicate commutes with lookup on
dictionaries with distinct keys. -/
theorem lookupD_filter_of_nodup (l : PyDict) (p : String × PyVal → Bool) (k : String)
    (h : NodupKeys l) :
    lookupD (l.filter p) k =
      match lookupD l k with
      | some v => if p (k, v) then some v else none
      | none => none := by
  induction l with
  | nil => rfl
  | cons kv rest ih =>
    obtain ⟨k', v⟩ := kv
    have hrest : NodupKeys rest := by
      unfold NodupKeys keysD at h ⊢
      exact (List.nodup_cons.mp h).2
    by_cases hk : k' = k
    · subst hk
      have hnot : k' ∉ keysD rest := by
        unfold NodupKeys at h
        exact (List.nodup_cons.mp h).1
      have hnone : lookupD rest k' = none := lookupD_eq_none_of_not_mem rest k' hnot
      have hnonef : lookupD (rest.filter p) k' = none := by
        apply lookupD_eq_none_of_not_mem
        intro hmem
        apply hnot
        unfold keysD at hmem ⊢
        obtain ⟨x, hx, hfx⟩ := List.mem_map.mp hmem
        exact List.mem_map.mpr ⟨x, List.mem_of_mem_filter hx, hfx⟩
      by_cases hp : p (k', v) = true
      · rw [List.filter_cons_of_pos hp]
        simp [hp]
      · rw [List.filter_cons_of_neg hp]
        simp only [Bool.not_eq_true] at hp
        simp [hp, hnone, hnonef]
    · by_cases hp : p (k', v) = true
      · rw [List.filter_cons_of_pos hp]
        simp only [lookupD_cons, hk, if_false]
        exact ih hrest
      · rw [List.filter_cons_of_neg hp]
        simp only [lookupD_cons, hk, if_false]
        exact ih hrest

/-- Lookup after a fold of assignments: an assigned key returns its last
assigned value, an untouched key falls through to the base dictionary. -/
theorem lookupD_updateAll (base l : PyDict) (k : String) (h : NodupKeys l) :
    lookupD (updateAll base l) k =
      match lookupD l k with
      | some v => some v
      | none => lookupD base k := by
  induction l generalizing base with
  | nil => rfl
  | cons kv rest ih =>
    obtain ⟨k', v⟩ := kv
    have hrest : NodupKeys rest := by
      unfold NodupKeys keysD at h ⊢
      exact (List.nodup_cons.mp h).2
    have hstep : updateAll base ((k', v) :: rest) = updateAll (updateD base k' v) rest := rfl
    rw [hstep, ih (updateD base k' v) hrest]
    by_cases hk : k' = k
    · subst hk
      have hnot : k' ∉ keysD rest := (List.nodup_cons.mp h).1
      rw [lookupD_eq_none_of_not_mem rest k' hnot]
      simp [lookupD_updateD]
    · cases hr : lookupD rest k with
      | some w => simp [hk, hr]
      | none => simp [lookupD_updateD, hk, hr]

/-! ### deepmerge (`config_merger`)

`config_merger = Merger(type_strategies=[(dict, "merge")], fallback "override",
conflict "override")`: merging `b` into `a` merges dictionaries recursively
and lets `b` override every other value. -/

mutual

/-- Merge value `b` into value `a` under `config_merger`'s strategies. -/
def pyMergeVal (a b : PyVal) : PyVal :=
  match a, b with
  | .dict xs, .dict ys => .dict (pyMergeEntries xs ys)
  | _, b' => b'

/-- Merge the entries `ys` into the dictionary `xs`, in order. -/
def pyMergeEntries (xs ys : PyDict) : PyDict :=
  match ys with
  | [] => xs
  | (k, v) :: rest =>
    pyMergeEntries
      (match lookupD xs k with
       | some old => updateD xs k (pyMergeVal old v)
       | none => xs ++ [(k, v)])
      rest

end

@[simp] theorem pyMergeEntries_nil (xs : PyDict) : pyMergeEntries xs [] = xs := by
  rw [pyMergeEntries]

@[simp] theorem pyMergeEntries_cons (xs : PyDict) (k : String) (v : PyVal) (rest : PyDict) :
    pyMergeEntries xs ((k, v) :: rest) =
      pyMergeEntries
        (match lookupD xs k with
         | some old => updateD xs k (pyMergeVal old v)
         | none => xs ++ [(k, v)])
        rest := by
  rw [pyMergeEntries]

/-- Lookup in a merged dictionary: keys of `ys` win (with dictionary values
deep-merged), other keys fall through to `xs`. -/
theorem lookupD_pyMergeEntries (xs ys : PyDict) (k : String) (h : NodupKeys ys) :
    lookupD (pyMergeEntries xs ys) k =
      match lookupD ys k with
      | some v =>
          some (match lookupD xs k with
                | some old => pyMergeVal old v
                | none => v)
      | none => lookupD xs k := by
  induction ys generalizing xs with
  | nil => simp
  | cons kv rest ih =>
    obtain ⟨k0, v0⟩ := kv
    have hrest : NodupKeys rest := (List.nodup_cons.mp h).2
    have hnot : k0 ∉ keysD rest := (List.nodup_cons.mp h).1
    rw [pyMergeEntries_cons]
    by_cases hk : k0 = k
    · subst hk
      rw [ih _ hrest, lookupD_eq_none_of_not_mem rest k0 hnot]
      cases hx : lookupD xs k0 with
      | some old => simp [lookupD_updateD]
      | none =>
        rw [lookupD_append_right _ hx]
        simp
    · rw [ih _ hrest]
      have hxs' :
          lookupD
            (match lookupD xs k0 with
             | some old => updateD xs k0 (pyMergeVal old v0)
             | none => xs ++ [(k0, v0)]) k = lookupD xs k := by
        cases hx : lookupD xs k0 with
        | some old => simp [lookupD_updateD, hk]
        | none =>
          cases hxk : lookupD xs k with
          | some w => rw [lookupD_append_left _ hxk]
          | none =>
            rw [lookupD_append_right _ hxk]
            simp [hk]
      rw [hxs']
      simp [hk]

/-- Keys present in `xs` stay present after merging `ys` in. -/
theorem mem_keysD_pyMergeEntries_left (xs ys : PyDict) (k : String) (h : k ∈ keysD xs) :
    k ∈ keysD (pyMergeEntries xs ys) := by
  induction ys generalizing xs with
  | nil => simpa using h
  | cons kv rest ih =>
    obtain ⟨k0, v0⟩ := kv
    rw [pyMergeEntries_cons]
    apply ih
    cases hx : lookupD xs k0 with
    | some old =>
      by_cases hk : k0 = k
      · subst hk
        have := lookupD_updateD xs k0 k0 (pyMergeVal old v0)
        rw [if_pos rfl] at this
        exact mem_keysD_of_lookupD _ k0 _ this
      · obtain ⟨v, hv⟩ := Option.isSome_iff_exists.mp ((lookupD_isSome_iff_mem xs k).mpr h)
        have := lookupD_updateD xs k0 k (pyMergeVal old v0)
        rw [if_neg hk, hv] at this
        exact mem_keysD_of_lookupD _ k _ this
    | none =>
      unfold keysD at h ⊢
      simp only [List.map_append, List.mem_append]
      left
      exact h

/-- Keys of `ys` are present after merging `ys` into `xs`. -/
theorem mem_keysD_pyMergeEntries_right (xs ys : PyDict) (k : String) (h : k ∈ keysD ys) :
    k ∈ keysD (pyMergeEntries xs ys) := by
  induction ys generalizing xs with
  | nil => simp at h
  | cons kv rest ih =>
    obtain ⟨k0, v0⟩ := kv
    rw [pyMergeEntries_cons]
    by_cases hk : k0 = k
    · subst hk
      apply mem_keysD_pyMergeEntries_left
      cases hx : lookupD xs k0 with
      | some old =>
        have := lookupD_updateD xs k0 k0 (pyMergeVal old v0)
        rw [if_pos rfl] at this
        exact mem_keysD_of_lookupD _ k0 _ this
      | none =>
        unfold keysD
        simp
    · apply ih
      simp only [keysD_cons, List.mem_cons] at h
      rcases h with h | h
      · exact absurd h.symm hk
      · exact h

/-! ### Python string primitives used by `_field_env_key`

`_field_env_key` (src/sdserver/_configuration.py, lines 146-147):

    def _field_env_key(model_name, key, suffix=None):
        return "_".join(filter(None, map(str.upper,
            ["SDSERVER", model_name, suffix.strip("_") if suffix else "", key])))
-/

/-- Python `str.upper` (ASCII as used here). -/
def pyUpper (s : String) : String := ⟨s.data.map Char.toUpper⟩

/-- Python `str.strip("_")`: drop leading and trailing underscores. -/
def pyStripUnderscores (s : String) : String :=
  ⟨((s.data.dropWhile (· = '_')).reverse.dropWhile (· = '_')).reverse⟩

/-- Python `"_".join`. -/
def joinUnderscore : List String → String
  | [] => ""
  | [x] => x
  | x :: y :: rest => x ++ "_" ++ joinUnderscore (y :: rest)

/-- The suffix expression `suffix.strip("_") if suffix else ""` (both `None`
and the empty string are falsy). -/
def pySuffix : Option String → String
  | none => ""
  | some s => if s = "" then "" else pyStripUnderscores s

/-- `_field_env_key`: uppercase the four segments, drop the empty ones and
join the rest with underscores. -/
def field_env_key (model_name key : String) (suffix : Option String) : String :=
  joinUnderscore
    (((["SDSERVER", model_name, pySuffix suffix, key]).map pyUpper).filter
      (fun s => s ≠ ""))

theorem str_ext {a b : String} (h : a.data = b.data) : a = b := by
  cases a; cases b; cases h; rfl

theorem str_append_assoc (a b c : String) : (a ++ b) ++ c = a ++ (b ++ c) := by
  apply str_ext
  show (a.data ++ b.data) ++ c.data = a.data ++ (b.data ++ c.data)
  exact List.append_assoc _ _ _

theorem pyUpper_ne_empty {t : String} (h : t ≠ "") : pyUpper t ≠ "" := by
  intro hbad
  apply h
  have hdata : t.data.map Char.toUpper = [] := congrArg String.data hbad
  have : t.data = [] := List.map_eq_nil_iff.mp hdata
  apply str_ext
  exact this

/-- Claim C1 (corrected).  For nonempty model name and field key, the
derived environment key is SDSERVER, the uppercased model name, the
uppercased underscore-stripped suffix (omitted when the suffix is absent,
empty or consists of underscores only) and the uppercased key, joined by
single underscores.  The function is a pure total Lean function by
construction. -/
theorem field_env_key_spec (m k : String) (s : Option String)
    (hm : m ≠ "") (hk : k ≠ "") :
    (pySuffix s = "" →
      field_env_key m k s = "SDSERVER" ++ "_" ++ pyUpper m ++ "_" ++ pyUpper k) ∧
    (pySuffix s ≠ "" →
      field_env_key m k s =
        "SDSERVER" ++ "_" ++ pyUpper m ++ "_" ++ pyUpper (pySuffix s) ++ "_" ++ pyUpper k) := by
  have hm' : pyUpper m ≠ "" := pyUpper_ne_empty hm
  have hk' : pyUpper k ≠ "" := pyUpper_ne_empty hk
  have hS : ("SDSERVER" : String) ≠ "" := by decide
  constructor
  · intro hs
    unfold field_env_key
    rw [hs]
    show joinUnderscore
        ((["SDSERVER", pyUpper m, pyUpper "", pyUpper k]).filter (fun s => s ≠ "")) = _
    have hE : pyUpper "" = "" := rfl
    rw [hE]
    rw [List.filter_cons_of_pos (by simp),
        List.filter_cons_of_pos (by simpa using hm'),
        List.filter_cons_of_neg (by simp),
        List.filter_cons_of_pos (by simpa using hk'),
        List.filter_nil]
    show ("SDSERVER" ++ "_") ++ ((pyUpper m ++ "_") ++ pyUpper k) = _
    simp [str_append_assoc]
  · intro hs
    have hs' : pyUpper (pySuffix s) ≠ "" := pyUpper_ne_empty hs
    unfold field_env_key
    show joinUnderscore
        ((["SDSERVER", pyUpper m, pyUpper (pySuffix s), pyUpper k]).filter
          (fun s => s ≠ "")) = _
    rw [List.filter_cons_of_pos (by simp),
        List.filter_cons_of_pos (by simpa using hm'),
        List.filter_cons_of_pos (by simpa using hs'),
        List.filter_cons_of_pos (by simpa using hk'),
        List.filter_nil]
    show ("SDSERVER" ++ "_") ++ ((pyUpper m ++ "_") ++ ((pyUpper (pySuffix s) ++ "_") ++ pyUpper k)) = _
    simp [str_append_assoc]

/-- Witness for `field_env_key_spec` at `m = "model_a"`, `k = "temperature"`,
suffix `"generation"`. -/
theorem field_env_key_spec_witness :
    ("model_a" : String) ≠ "" ∧ ("temperature" : String) ≠ "" ∧
      field_env_key "model_a" "temperature" (some "generation") =
        "SDSERVER_MODEL_A_GENERATION_TEMPERATURE" := by
  refine ⟨by decide, by decide, ?_⟩
  have h := (field_env_key_spec "model_a" "temperature" (some "generation")
      (by decide) (by decide)).2 (by decide)
  rw [h]
  decide

/-- Claim C1, counterexample to the claim as stated: for the suffix
`"_g_"` the derived key strips the underscores of the suffix, so the
result is not the plain underscore-join of the uppercased segments
(`"SDSERVER_M__G__K"`); it is `"SDSERVER_M_G_K"`. -/
theorem field_env_key_claim_counterexample :
    field_env_key "m" "k" (some "_g_") = "SDSERVER_M_G_K" ∧
      field_env_key "m" "k" (some "_g_") ≠
        "SDSERVER" ++ "_" ++ pyUpper "m" ++ "_" ++ pyUpper "_g_" ++ "_" ++ pyUpper "k" := by
  constructor
  · decide
  · decide

/-! ### SDConfig instances

`SDConfig` (src/sdserver/_configuration.py).  A declared subtype is
summarised by the data its methods consult: the normalized model name, the
set of declared (annotated) field names (`__sdserver_accepted_keys__`),
the declared fields' defaults, and the generation sub-record's field names
and defaults.  An instance holds the declared field values, the generation
sub-record values and the extras mapping (`__sdserver_extras__`).

The attrs/dantic machinery that generates `__attrs_init__` and the
`generation_config` field lives in `sdserver.utils` modules that are not
part of the sources; following the specification, `generation_config` is a
declared field holding the nested generation sub-record, and
`__attrs_init__` assigns each passed keyword over the field defaults. -/

/-- Errors raised by the configuration layer. -/
inductive PyError where
  | forbiddenAttribute : PyError
  | attributeError : PyError
  | typeError : PyError
  | keyError : PyError
  | valueErrorGenerationClass : PyError
  | valueErrorRequired : PyError
  | runtimeJsonParse (envVar : String) : PyError
  | runtimeExpectedDict : PyError
deriving Repr, DecidableEq

/-- `_reserved_namespace` (line 394). -/
def reserved_namespace : List String := ["__config__", "GenerationConfig"]

/-- The class-level data of a declared `SDConfig` subtype. -/
structure ConfigClass where
  modelName : String
  acceptedKeys : List String
  fieldDefaults : PyDict
  genKeys : List String
  genDefaults : PyDict

/-- A constructed configuration instance. -/
structure ConfigInstance where
  fields : PyDict
  generation : PyDict
  extras : PyDict

/-- Python `v is None`. -/
def isNoneV : PyVal → Bool
  | .none_ => true
  | _ => false

/-- `SDConfig.__init__`, step 1 (lines 753-757): the effective
generation-parameters dictionary.  Keywords naming a generation field are
claimed for it; an explicitly passed mapping is deep-merged with them
(the claimed keywords winning on conflicts). -/
def initGenDict (cls : ConfigClass) (generation_config : Option PyDict)
    (attrs : PyDict) : PyDict :=
  match generation_config with
  | none => attrs.filter (fun kv => kv.1 ∈ cls.genKeys)
  | some g => pyMergeEntries g (attrs.filter (fun kv => kv.1 ∈ cls.genKeys))

/-- `SDConfig.__init__`, step 2 (lines 759-762): drop every keyword that
was claimed by the generation dictionary or whose value is `None`. -/
def initLiveAttrs (gc : PyDict) (attrs : PyDict) : PyDict :=
  attrs.filter (fun kv => !(decide (kv.1 ∈ keysD gc) || isNoneV kv.2))

/-- `SDConfig.__init__`, step 3 (lines 764-767): the extras mapping is the
explicit `__sdserver_extras__` argument (defaulting to `{}`) with every
remaining keyword that is not an accepted key merged in. -/
def initExtras (cls : ConfigClass) (sdserver_extras : Option PyDict)
    (attrs1 : PyDict) : PyDict :=
  pyMergeEntries (sdserver_extras.getD [])
    (attrs1.filter (fun kv => !(decide (kv.1 ∈ cls.acceptedKeys))))

/-- `SDConfig.__init__` (lines 743-783): partition the keywords, then call
`__attrs_init__` with the surviving keywords and the generation sub-record
built by the generation class from the merged dictionary (which raises a
`TypeError` when that dictionary holds a key that is not a generation
field). -/
def sdconfig_init (cls : ConfigClass) (generation_config : Option PyDict)
    (sdserver_extras : Option PyDict) (attrs : PyDict) :
    Except PyError ConfigInstance :=
  let gc := initGenDict cls generation_config attrs
  let attrs1 := initLiveAttrs gc attrs
  let extras := initExtras cls sdserver_extras attrs1
  let attrs2 := attrs1.filter (fun kv => !(decide (kv.1 ∈ keysD extras)))
  if gc.all (fun kv => decide (kv.1 ∈ cls.genKeys)) then
    .ok { fields := updateAll cls.fieldDefaults attrs2,
          generation := updateAll cls.genDefaults gc,
          extras := extras }
  else .error .typeError

/-- What dictionary-style access can observe on an instance: the
class-level `__sdserver_*__` attributes (stored under their full dunder
names), the attributes reachable as plain `self.<name>` (declared fields
and methods), the generation sub-record, and the extras mapping. -/
structure AttrStore where
  internalAttrs : PyDict
  instAttrs : PyDict
  genAttrs : PyDict
  extras : PyDict

/-- Outcome of `SDConfig.__getitem__`. -/
inductive GetOutcome where
  | ok (v : PyVal) : GetOutcome
  | forbidden : GetOutcome
  | keyErr : GetOutcome
  | typeErr : GetOutcome

/-- An index expression: a string, or a value of any other type. -/
inductive PyKey where
  | str (s : String) : PyKey
  | nonStr : PyKey

/-- `SDConfig.__getitem__` (lines 785-808): reject non-string keys, reject
reserved names, then probe `__sdserver_<item>__`, the plain attribute, the
generation sub-record and the extras mapping in that order. -/
def sdconfig_getitem (st : AttrStore) (item : PyKey) : GetOutcome :=
  match item with
  | .nonStr => .typeErr
  | .str s =>
    if s ∈ reserved_namespace then .forbidden
    else
      match lookupD st.internalAttrs ("__sdserver_" ++ s ++ "__") with
      | some v => .ok v
      | none =>
        match lookupD st.instAttrs s with
        | some v => .ok v
        | none =>
          match lookupD st.genAttrs s with
          | some v => .ok v
          | none =>
            match lookupD st.extras s with
            | some v => .ok v
            | none => .keyErr

/-- The lookup procedure exactly as the specification sentence states it:
four stores probed in order, first hit wins, `KeyError` on a total miss,
`TypeError` on a non-string index — with no reserved-name branch. -/
def sdconfig_getitem_claimed (st : AttrStore) (item : PyKey) : GetOutcome :=
  match item with
  | .nonStr => .typeErr
  | .str s =>
    match lookupD st.internalAttrs ("__sdserver_" ++ s ++ "__") with
    | some v => .ok v
    | none =>
      match lookupD st.instAttrs s with
      | some v => .ok v
      | none =>
        match lookupD st.genAttrs s with
        | some v => .ok v
        | none =>
          match lookupD st.extras s with
          | some v => .ok v
          | none => .keyErr

/-- `SDConfig.__setattr__` (lines 733-741): reserved names raise
`ForbiddenAttributeError`; any other name is handed to the slotted
`super().__setattr__`, which assigns slot attributes and raises
`AttributeError` for unknown names. -/
def sdconfig_setattr (slots : List String) (cur : PyDict) (name : String)
    (v : PyVal) : Except PyError PyDict :=
  if name ∈ reserved_namespace then .error .forbiddenAttribute
  else if name ∈ slots then .ok (updateD cur name v)
  else .error .attributeError

theorem not_mem_keysD_filter (l : PyDict) (p : String × PyVal → Bool) (k : String)
    (h : k ∉ keysD l) : k ∉ keysD (l.filter p) := by
  intro hmem
  apply h
  unfold keysD at hmem ⊢
  obtain ⟨x, hx, hfx⟩ := List.mem_map.mp hmem
  exact List.mem_map.mpr ⟨x, List.mem_of_mem_filter hx, hfx⟩

/-- A key absent from the update list is untouched by the fold. -/
theorem lookupD_updateAll_of_none (base l : PyDict) (k : String)
    (h : lookupD l k = none) :
    lookupD (updateAll base l) k = lookupD base k := by
  induction l generalizing base with
  | nil => rfl
  | cons kv rest ih =>
    obtain ⟨k0, v0⟩ := kv
    by_cases hk : k0 = k
    · simp [hk] at h
    · simp only [lookupD_cons, hk, if_false] at h
      have hstep : updateAll base ((k0, v0) :: rest) = updateAll (updateD base k0 v0) rest := rfl
      rw [hstep, ih _ h, lookupD_updateD]
      simp [hk]

/-- Claim C2 (corrected).  Indexing with a non-string raises `TypeError`;
indexing with a reserved name (`__config__`, `GenerationConfig`) raises
`ForbiddenAttributeError`; for every other string key the access behaves
exactly as the claimed four-store chain: internal `__sdserver_<k>__`
attribute, then plain attribute, then generation sub-record, then extras,
first hit winning — in particular a declared field shadows a same-named
extras entry — and a miss in all four stores raises `KeyError`. -/
theorem sdconfig_getitem_spec (st : AttrStore) (s : String) :
    (sdconfig_getitem st .nonStr = .typeErr) ∧
    (s ∈ reserved_namespace → sdconfig_getitem st (.str s) = .forbidden) ∧
    (s ∉ reserved_namespace →
      sdconfig_getitem st (.str s) = sdconfig_getitem_claimed st (.str s)) ∧
    (s ∉ reserved_namespace →
      lookupD st.internalAttrs ("__sdserver_" ++ s ++ "__") = none →
      ∀ v, lookupD st.instAttrs s = some v →
        sdconfig_getitem st (.str s) = .ok v) ∧
    (s ∉ reserved_namespace →
      lookupD st.internalAttrs ("__sdserver_" ++ s ++ "__") = none →
      lookupD st.instAttrs s = none → lookupD st.genAttrs s = none →
      lookupD st.extras s = none →
      sdconfig_getitem st (.str s) = .keyErr) := by
  refine ⟨rfl, ?_, ?_, ?_, ?_⟩
  · intro h
    simp [sdconfig_getitem, h]
  · intro h
    simp [sdconfig_getitem, sdconfig_getitem_claimed, h]
  · intro h hint v hinst
    simp [sdconfig_getitem, h, hint, hinst]
  · intro h hint hinst hgen hex
    simp [sdconfig_getitem, h, hint, hinst, hgen, hex]

/-- Witness for `sdconfig_getitem_spec`: a declared field `temperature`
shadows the extras entry of the same name. -/
theorem sdconfig_getitem_spec_witness :
    ("temperature" : String) ∉ reserved_namespace ∧
      sdconfig_getitem
        ⟨[], [("temperature", PyVal.int 2)], [], [("temperature", PyVal.int 9)]⟩
        (.str "temperature") = .ok (PyVal.int 2) :=
  ⟨by decide,
    (sdconfig_getitem_spec
        ⟨[], [("temperature", PyVal.int 2)], [], [("temperature", PyVal.int 9)]⟩
        "temperature").2.2.2.1 (by decide) rfl (PyVal.int 2) rfl⟩

/-- Claim C2, counterexample to the claim as stated: for the key
`"__config__"` the code raises `ForbiddenAttributeError` before probing
any store, while the claimed four-store chain would return the plain
attribute (every subclass carries a `__config__` attribute). -/
theorem sdconfig_getitem_reserved_counterexample :
    sdconfig_getitem ⟨[], [("__config__", PyVal.int 1)], [], []⟩ (.str "__config__")
        = .forbidden ∧
      sdconfig_getitem_claimed ⟨[], [("__config__", PyVal.int 1)], [], []⟩
        (.str "__config__") = .ok (PyVal.int 1) ∧
      (GetOutcome.forbidden ≠ GetOutcome.ok (PyVal.int 1)) :=
  ⟨rfl, rfl, by simp⟩

/-- Claim C3 (confirmed).  Assigning a reserved attribute name on an
instance always raises `ForbiddenAttributeError`, whatever the instance
state; assigning any non-reserved name never raises that error. -/
theorem sdconfig_setattr_reserved_spec (slots : List String) (cur : PyDict)
    (name : String) (v : PyVal) :
    (name ∈ reserved_namespace →
      sdconfig_setattr slots cur name v = .error .forbiddenAttribute) ∧
    (name ∉ reserved_namespace →
      sdconfig_setattr slots cur name v ≠ .error .forbiddenAttribute) := by
  constructor
  · intro h
    simp [sdconfig_setattr, h]
  · intro h
    by_cases hs : name ∈ slots <;> simp [sdconfig_setattr, h, hs]

/-- Witness for `sdconfig_setattr_reserved_spec`: `__config__` is rejected
on an arbitrary instance state, `temperature` is not. -/
theorem sdconfig_setattr_reserved_spec_witness :
    (("__config__" : String) ∈ reserved_namespace ∧
      sdconfig_setattr ["temperature"] [] "__config__" (PyVal.int 0)
        = .error .forbiddenAttribute) ∧
    (("temperature" : String) ∉ reserved_namespace ∧
      sdconfig_setattr ["temperature"] [] "temperature" (PyVal.int 0)
        ≠ .error .forbiddenAttribute) :=
  ⟨⟨by decide,
      (sdconfig_setattr_reserved_spec ["temperature"] [] "__config__" (PyVal.int 0)).1
        (by decide)⟩,
    ⟨by decide,
      (sdconfig_setattr_reserved_spec ["temperature"] [] "temperature" (PyVal.int 0)).2
        (by decide)⟩⟩

/-- Claim C10 (confirmed).  A keyword whose value is `None`, not claimed by
the generation partition, is silently dropped by `__init__`: the declared
field keeps its default, the generation sub-record keeps its default, and
the extras mapping is whatever the explicit extras argument provided. -/
theorem sdconfig_init_discards_none (cls : ConfigClass)
    (generation_config sdserver_extras : Option PyDict) (attrs : PyDict)
    (k : String) (inst : ConfigInstance)
    (hnd : NodupKeys attrs)
    (hval : lookupD attrs k = some PyVal.none_)
    (hgen : k ∉ cls.genKeys)
    (hgc : ∀ g, generation_config = some g → k ∉ keysD g)
    (hok : sdconfig_init cls generation_config sdserver_extras attrs = .ok inst) :
    lookupD inst.fields k = lookupD cls.fieldDefaults k ∧
    lookupD inst.generation k = lookupD cls.genDefaults k ∧
    lookupD inst.extras k = lookupD (sdserver_extras.getD []) k := by
  have hgcnone : lookupD (initGenDict cls generation_config attrs) k = none := by
    have hclaimed :
        lookupD (attrs.filter (fun kv => decide (kv.1 ∈ cls.genKeys))) k = none := by
      rw [lookupD_filter_of_nodup _ _ _ hnd, hval]
      simp [hgen]
    cases generation_config with
    | none => exact hclaimed
    | some g =>
      unfold initGenDict
      rw [lookupD_pyMergeEntries _ _ _
            (nodupKeys_filter _ _ hnd), hclaimed]
      exact lookupD_eq_none_of_not_mem g k (hgc g rfl)
  have h1 : lookupD (initLiveAttrs (initGenDict cls generation_config attrs) attrs) k
      = none := by
    rw [initLiveAttrs, lookupD_filter_of_nodup _ _ _ hnd, hval]
    simp [isNoneV]
  have h1nd : NodupKeys (initLiveAttrs (initGenDict cls generation_config attrs) attrs) :=
    nodupKeys_filter _ _ hnd
  have h1mem : k ∉ keysD (initLiveAttrs (initGenDict cls generation_config attrs) attrs) := by
    intro hmem
    have := (lookupD_isSome_iff_mem _ k).mpr hmem
    rw [h1] at this
    simp at this
  have hextras :
      lookupD (initExtras cls sdserver_extras
        (initLiveAttrs (initGenDict cls generation_config attrs) attrs)) k
      = lookupD (sdserver_extras.getD []) k := by
    unfold initExtras
    rw [lookupD_pyMergeEntries _ _ _ (nodupKeys_filter _ _ h1nd)]
    rw [lookupD_eq_none_of_not_mem _ k (not_mem_keysD_filter _ _ k h1mem)]
  have h2 :
      lookupD ((initLiveAttrs (initGenDict cls generation_config attrs) attrs).filter
        (fun kv => !(decide (kv.1 ∈ keysD (initExtras cls sdserver_extras
          (initLiveAttrs (initGenDict cls generation_config attrs) attrs)))))) k
      = none := by
    rw [lookupD_filter_of_nodup _ _ _ h1nd, h1]
  simp only [sdconfig_init] at hok
  by_cases hall : (initGenDict cls generation_config attrs).all
      (fun kv => decide (kv.1 ∈ cls.genKeys)) = true
  · rw [if_pos hall] at hok
    injection hok with hinst
    subst hinst
    refine ⟨?_, ?_, ?_⟩
    · exact (lookupD_updateAll_of_none _ _ k h2)
    · exact (lookupD_updateAll_of_none _ _ k hgcnone)
    · exact hextras
  · rw [if_neg hall] at hok
    exact absurd hok (by simp)

/-- Witness for `sdconfig_init_discards_none`: constructing with
`a = None` on a class whose field `a` defaults to `1` leaves the default
in place and adds nothing to extras. -/
theorem sdconfig_init_discards_none_witness :
    lookupD [("a", PyVal.none_)] "a" = some PyVal.none_ ∧
      sdconfig_init ⟨"m", ["a"], [("a", PyVal.int 1)], ["t"], [("t", PyVal.int 0)]⟩
          none none [("a", PyVal.none_)]
        = .ok ⟨[("a", PyVal.int 1)], [("t", PyVal.int 0)], []⟩ ∧
      lookupD (ConfigInstance.mk [("a", PyVal.int 1)] [("t", PyVal.int 0)] []).fields "a"
        = lookupD (ConfigClass.mk "m" ["a"] [("a", PyVal.int 1)] ["t"]
            [("t", PyVal.int 0)]).fieldDefaults "a" := by
  have hok : sdconfig_init ⟨"m", ["a"], [("a", PyVal.int 1)], ["t"], [("t", PyVal.int 0)]⟩
      none none [("a", PyVal.none_)]
      = .ok ⟨[("a", PyVal.int 1)], [("t", PyVal.int 0)], []⟩ := by
    simp [sdconfig_init, initGenDict, initLiveAttrs, initExtras, isNoneV, updateAll]
  have h := sdconfig_init_discards_none
      ⟨"m", ["a"], [("a", PyVal.int 1)], ["t"], [("t", PyVal.int 0)]⟩
      none none [("a", PyVal.none_)] "a"
      ⟨[("a", PyVal.int 1)], [("t", PyVal.int 0)], []⟩
      (by decide) rfl (by decide) (fun g hg => by cases hg) hok
  exact ⟨rfl, hok, h.1⟩

/-! ### Serialization: `model_dump` and `structure_sd_config` -/

/-- `SDConfig.model_dump` (lines 860-865, without `flatten`): unstructure
every attrs field; declared fields pass through and the generation
sub-record becomes a nested dictionary under `"generation_config"`.  The
extras slot is not an attrs field, so it is not part of the dump. -/
def model_dump (c : ConfigInstance) : PyDict :=
  c.fields ++ [("generation_config", PyVal.dict c.generation)]

/-- `structure_sd_config`, the keys kept for the class
(`cls_attrs`, line 996). -/
def structureClsAttrs (cls : ConfigClass) (d : PyDict) : PyDict :=
  d.filter (fun kv => decide (kv.1 ∈ cls.acceptedKeys))

/-- `structure_sd_config`, the keys passed to extras (line 1001). -/
def structureRest (cls : ConfigClass) (d : PyDict) : PyDict :=
  d.filter (fun kv => !(decide (kv.1 ∈ keysD (structureClsAttrs cls d))))

/-- `structure_sd_config` (lines 983-1003): non-dictionaries are rejected;
accepted keys are passed as keywords (a `generation_config` entry binds
the generation parameter and must be a dictionary), the rest rides in as
the extras argument. -/
def structure_sd_config (cls : ConfigClass) (data : PyVal) :
    Except PyError ConfigInstance :=
  match data with
  | .dict d =>
    match lookupD (structureClsAttrs cls d) "generation_config" with
    | some (PyVal.dict g) =>
        sdconfig_init cls (some g) (some (structureRest cls d))
          ((structureClsAttrs cls d).filter (fun kv => kv.1 ≠ "generation_config"))
    | some _ => .error .typeError
    | none =>
        sdconfig_init cls none (some (structureRest cls d)) (structureClsAttrs cls d)
  | _ => .error .runtimeExpectedDict

/-- A declared subtype is coherent: `generation_config` is an accepted
key, the field defaults cover exactly the other accepted keys, the
generation defaults cover exactly the generation keys, and no declared
field shares its name with a generation field. -/
def ClassWF (cls : ConfigClass) : Prop :=
  "generation_config" ∈ cls.acceptedKeys ∧
  keysD cls.fieldDefaults = cls.acceptedKeys.filter (fun k => k ≠ "generation_config") ∧
  keysD cls.genDefaults = cls.genKeys ∧
  cls.acceptedKeys.Nodup ∧
  cls.genKeys.Nodup ∧
  (∀ k ∈ cls.acceptedKeys, k ∉ cls.genKeys)

/-- An instance of the subtype carries a value for every declared field
and every generation field, and no field holds Python `None`. -/
def InstanceWF (cls : ConfigClass) (c : ConfigInstance) : Prop :=
  keysD c.fields = keysD cls.fieldDefaults ∧
  keysD c.generation = keysD cls.genDefaults ∧
  (∀ kv ∈ c.fields, isNoneV kv.2 = false)

instance decidableClassWF (cls : ConfigClass) : Decidable (ClassWF cls) := by
  unfold ClassWF
  infer_instance

instance decidableInstanceWF (cls : ConfigClass) (c : ConfigInstance) :
    Decidable (InstanceWF cls c) := by
  unfold InstanceWF
  infer_instance

/-- Updating a base dictionary with a same-support dictionary reproduces
the latter, pointwise. -/
theorem lookupD_updateAll_same_support (base l : PyDict) (hnd : NodupKeys l)
    (hkeys : keysD l = keysD base) (k : String) :
    lookupD (updateAll base l) k = lookupD l k := by
  rw [lookupD_updateAll base l k hnd]
  cases hl : lookupD l k with
  | some v => rfl
  | none =>
    have hnm : k ∉ keysD l := by
      intro hm
      have := (lookupD_isSome_iff_mem l k).mpr hm
      rw [hl] at this
      simp at this
    rw [hkeys] at hnm
    exact lookupD_eq_none_of_not_mem base k hnm

/-- Claim C6 (corrected).  For a coherent subtype whose declared field
names do not collide with generation field names, and an instance with no
null field value, structuring the dumped mapping reproduces the instance
field-for-field, generation parameters included (the extras slot is not
dumped, so it comes back empty). -/
theorem structure_dump_roundtrip (cls : ConfigClass) (c : ConfigInstance)
    (hcls : ClassWF cls) (hinst : InstanceWF cls c) :
    ∃ c', structure_sd_config cls (.dict (model_dump c)) = .ok c' ∧
      (∀ k, lookupD c'.fields k = lookupD c.fields k) ∧
      (∀ k, lookupD c'.generation k = lookupD c.generation k) ∧
      c'.extras = [] := by
  obtain ⟨hga, hfd, hgd, hand, hgnd, hdisj⟩ := hcls
  obtain ⟨hf, hg, hnn⟩ := hinst
  have hfmem : ∀ k, k ∈ keysD c.fields → k ∈ cls.acceptedKeys ∧ k ≠ "generation_config" := by
    intro k hk
    rw [hf, hfd] at hk
    have := List.mem_filter.mp hk
    exact ⟨this.1, by simpa using this.2⟩
  have hfnd : NodupKeys c.fields := by
    unfold NodupKeys
    rw [hf, hfd]
    exact List.Nodup.filter _ hand
  have hgkeys : keysD c.generation = cls.genKeys := hg.trans hgd
  have hgnd' : NodupKeys c.generation := by
    unfold NodupKeys
    rw [hgkeys]
    exact hgnd
  have hfgen : ∀ k, k ∈ keysD c.fields → k ∉ cls.genKeys :=
    fun k hk => hdisj k (hfmem k hk).1
  -- every key of the dump is accepted, so `cls_attrs` is the whole dump
  have hclsattrs : structureClsAttrs cls (model_dump c) = model_dump c := by
    apply List.filter_eq_self.mpr
    intro kv hkv
    rcases List.mem_append.mp hkv with h | h
    · exact decide_eq_true (hfmem kv.1 (List.mem_map.mpr ⟨kv, h, rfl⟩)).1
    · simp only [List.mem_singleton] at h
      subst h
      exact decide_eq_true hga
  have hrest : structureRest cls (model_dump c) = [] := by
    apply List.filter_eq_nil_iff.mpr
    intro kv hkv
    rw [hclsattrs]
    simp only [Bool.not_eq_true', Bool.not_eq_false]
    exact decide_eq_true (List.mem_map.mpr ⟨kv, hkv, rfl⟩)
  have hfgc : lookupD c.fields "generation_config" = none :=
    lookupD_eq_none_of_not_mem _ _ (fun hm => (hfmem _ hm).2 rfl)
  have hlookgc : lookupD (structureClsAttrs cls (model_dump c)) "generation_config"
      = some (PyVal.dict c.generation) := by
    rw [hclsattrs]
    unfold model_dump
    rw [lookupD_append_right _ hfgc]
    simp
  have hattrs : (structureClsAttrs cls (model_dump c)).filter
      (fun kv => kv.1 ≠ "generation_config") = c.fields := by
    rw [hclsattrs]
    unfold model_dump
    rw [List.filter_append]
    have h1 : c.fields.filter (fun kv => kv.1 ≠ "generation_config") = c.fields :=
      List.filter_eq_self.mpr (fun kv hkv => by
        simpa using (hfmem kv.1 (List.mem_map.mpr ⟨kv, hkv, rfl⟩)).2)
    have h2 : ([(("generation_config" : String), PyVal.dict c.generation)]).filter
        (fun kv => kv.1 ≠ "generation_config") = ([] : PyDict) := by simp
    rw [h1, h2, List.append_nil]
  have hstep : structure_sd_config cls (.dict (model_dump c))
      = sdconfig_init cls (some c.generation) (some []) c.fields := by
    simp only [structure_sd_config, hlookgc, hrest, hattrs]
  -- the init pipeline leaves everything in place
  have hclaimed : c.fields.filter (fun kv => decide (kv.1 ∈ cls.genKeys)) = [] := by
    apply List.filter_eq_nil_iff.mpr
    intro kv hkv
    simp only [decide_eq_true_eq]
    exact hfgen kv.1 (List.mem_map.mpr ⟨kv, hkv, rfl⟩)
  have hginit : initGenDict cls (some c.generation) c.fields = c.generation := by
    simp only [initGenDict]
    rw [hclaimed, pyMergeEntries_nil]
  have hlive : initLiveAttrs c.generation c.fields = c.fields := by
    apply List.filter_eq_self.mpr
    intro kv hkv
    have h1 : kv.1 ∉ keysD c.generation := by
      rw [hgkeys]
      exact hfgen kv.1 (List.mem_map.mpr ⟨kv, hkv, rfl⟩)
    have h2 : isNoneV kv.2 = false := hnn kv hkv
    simp [h1, h2]
  have hext : initExtras cls (some []) c.fields = [] := by
    unfold initExtras
    have h1 : c.fields.filter (fun kv => !(decide (kv.1 ∈ cls.acceptedKeys))) = [] := by
      apply List.filter_eq_nil_iff.mpr
      intro kv hkv
      simp only [Bool.not_eq_true', Bool.not_eq_false]
      exact decide_eq_true (hfmem kv.1 (List.mem_map.mpr ⟨kv, hkv, rfl⟩)).1
    rw [h1]
    simp
  have hattrs2 : c.fields.filter (fun kv => !(decide (kv.1 ∈ keysD ([] : PyDict)))) = c.fields := by
    apply List.filter_eq_self.mpr
    intro kv hkv
    simp
  have hguard : c.generation.all (fun kv => decide (kv.1 ∈ cls.genKeys)) = true := by
    apply List.all_eq_true.mpr
    intro kv hkv
    simp only [decide_eq_true_eq]
    rw [← hgkeys]
    exact List.mem_map.mpr ⟨kv, hkv, rfl⟩
  have hiniteq : sdconfig_init cls (some c.generation) (some []) c.fields
      = .ok ⟨updateAll cls.fieldDefaults c.fields, updateAll cls.genDefaults c.generation, []⟩ := by
    simp only [sdconfig_init, hginit, hlive, hext, hattrs2, hguard, if_true]
  refine ⟨⟨updateAll cls.fieldDefaults c.fields, updateAll cls.genDefaults c.generation, []⟩,
    hstep.trans hiniteq, ?_, ?_, rfl⟩
  · intro k
    exact lookupD_updateAll_same_support _ _ hfnd hf k
  · intro k
    exact lookupD_updateAll_same_support _ _ hgnd' hg k

/-- Witness for `structure_dump_roundtrip` on a class with one declared
field and one generation field. -/
theorem structure_dump_roundtrip_witness :
    ClassWF ⟨"m", ["temperature", "generation_config"], [("temperature", PyVal.int 2)],
        ["top_k"], [("top_k", PyVal.int 5)]⟩ ∧
    InstanceWF ⟨"m", ["temperature", "generation_config"], [("temperature", PyVal.int 2)],
        ["top_k"], [("top_k", PyVal.int 5)]⟩
      ⟨[("temperature", PyVal.int 3)], [("top_k", PyVal.int 7)], []⟩ ∧
    (∃ c', structure_sd_config
        ⟨"m", ["temperature", "generation_config"], [("temperature", PyVal.int 2)],
          ["top_k"], [("top_k", PyVal.int 5)]⟩
        (.dict (model_dump ⟨[("temperature", PyVal.int 3)], [("top_k", PyVal.int 7)], []⟩))
        = .ok c' ∧
      (∀ k, lookupD c'.fields k =
        lookupD (ConfigInstance.mk [("temperature", PyVal.int 3)] [("top_k", PyVal.int 7)] []).fields k) ∧
      (∀ k, lookupD c'.generation k =
        lookupD (ConfigInstance.mk [("temperature", PyVal.int 3)] [("top_k", PyVal.int 7)] []).generation k) ∧
      c'.extras = []) :=
  ⟨by decide, by decide,
    structure_dump_roundtrip
      ⟨"m", ["temperature", "generation_config"], [("temperature", PyVal.int 2)],
        ["top_k"], [("top_k", PyVal.int 5)]⟩
      ⟨[("temperature", PyVal.int 3)], [("top_k", PyVal.int 7)], []⟩
      (by decide) (by decide)⟩

/-- Claim C6, counterexample to the claim as stated: on a subtype whose
declared field `temperature` shares its name with a generation field, the
dumped top-level `temperature` is claimed by the generation partition when
restructured, so the declared field falls back to its default and the
generation value is overwritten: `structure(dump(c)) ≠ c`. -/
theorem structure_dump_roundtrip_counterexample :
    structure_sd_config
        ⟨"m", ["temperature", "generation_config"], [("temperature", PyVal.int 1)],
          ["temperature"], [("temperature", PyVal.int 0)]⟩
        (.dict (model_dump ⟨[("temperature", PyVal.int 2)], [("temperature", PyVal.int 7)], []⟩))
      = .ok ⟨[("temperature", PyVal.int 1)], [("temperature", PyVal.int 2)], []⟩ ∧
    lookupD ([("temperature", PyVal.int 1)] : PyDict) "temperature" ≠
      lookupD (ConfigInstance.mk [("temperature", PyVal.int 2)]
        [("temperature", PyVal.int 7)] []).fields "temperature" := by
  constructor
  · simp [structure_sd_config, structureClsAttrs, structureRest, model_dump, sdconfig_init,
      initGenDict, initLiveAttrs, initExtras, isNoneV, updateAll, updateD, keysD, pyMergeVal]
  · simp [lookupD]

/-! ### Subtype declaration: `structure_settings` (claims C4 and C7) -/

/-- Python `str.lower` (ASCII as used here). -/
def pyLower (s : String) : String := ⟨s.data.map Char.toLower⟩

/-- `cl_.__name__.replace("Config", "")` (line 245): remove every
occurrence of the fixed pattern `Config`, scanning left to right. -/
def removeConfigSeq : List Char → List Char
  | 'C' :: 'o' :: 'n' :: 'f' :: 'i' :: 'g' :: rest => removeConfigSeq rest
  | c :: rest => c :: removeConfigSeq rest
  | [] => []

/-- The `_cl_name` computation of `structure_settings`. -/
def stripConfig (s : String) : String := ⟨removeConfigSeq s.data⟩

/-- The two regex substitutions of `inflection.underscore`: separate a
lowercase letter or digit from a following uppercase letter, and an
uppercase letter from a following uppercase-lowercase pair. -/
def underscoreSep : List Char → List Char
  | [] => []
  | [c] => [c]
  | c1 :: c2 :: rest =>
    if (c1.isLower || c1.isDigit) && c2.isUpper then
      c1 :: '_' :: underscoreSep (c2 :: rest)
    else if c1.isUpper && c2.isUpper &&
        (match rest with | r :: _ => r.isLower | [] => false) then
      c1 :: '_' :: underscoreSep (c2 :: rest)
    else
      c1 :: underscoreSep (c2 :: rest)

/-- `inflection.underscore`: separate CamelCase words with underscores,
turn dashes into underscores, and lowercase. -/
def underscore (s : String) : String :=
  ⟨((underscoreSep s.data).map (fun c => if c = '-' then '_' else c)).map Char.toLower⟩

/-- `inflection.dasherize`: replace underscores by dashes. -/
def dasherize (s : String) : String :=
  ⟨s.data.map (fun c => if c = '_' then '-' else c)⟩

/-- The annotated keys of the `ModelSettings` TypedDict (lines 154-179);
`_settings_field_transformer` generates exactly one `_ModelSettingsAttr`
field per key. -/
def modelSettingsKeys : List String :=
  ["default_id", "model_ids", "url", "requires_gpu", "trust_remote_code",
   "service_name", "requirements", "name_type", "model_name", "start_name",
   "env", "timeout", "workers_per_resource"]

/-- The `Required` keys of `ModelSettings`. -/
def modelSettingsRequiredKeys : List String := ["default_id", "model_ids"]

/-- The keyword names `_ModelSettingsAttr.default()` passes
(lines 210-227). -/
def modelSettingsDefaultKwargs : List String :=
  ["default_id", "model_ids", "name_type", "requires_gpu", "url",
   "use_pipeline", "model_type", "trust_remote_code", "requirements",
   "timeout", "service_name", "workers_per_resource", "runtime"]

/-- Whether `_ModelSettingsAttr(**kwargs)` succeeds: every keyword must
name a generated field, every required field must be supplied; otherwise
the attrs-generated initializer raises `TypeError` (the optional fields
carry `auto_default` defaults). -/
def settingsCtorOk (kwargs : List String) : Bool :=
  kwargs.all (fun k => decide (k ∈ modelSettingsKeys)) &&
    modelSettingsRequiredKeys.all (fun k => decide (k ∈ kwargs))

/-- The naming data `structure_settings` derives for a subtype. -/
structure DerivedNames where
  modelName : String
  startName : String
  serviceName : String
deriving DecidableEq

/-- The `service_name` template (line 276). -/
def service_name_of (modelName : String) : String :=
  "generated_" ++ modelName ++ "_service.py"

/-- Lines 245 and 254-263: strip `Config` from the class name and derive
`model_name` (underscored or lowercased by `name_type`), `start_name`
(dasherized under the `dasherize` convention) and `service_name`. -/
def derive_names (clsName : String) (nameType : String) : DerivedNames :=
  let clName := stripConfig clsName
  let modelName := if nameType = "dasherize" then underscore clName else pyLower clName
  let startName := if nameType = "dasherize" then dasherize modelName else modelName
  ⟨modelName, startName, service_name_of modelName⟩

/-- `structure_settings` (lines 230-297), in source order: the
`generation_class` reservation check raises `ValueError`; then
`_ModelSettingsAttr.default()` constructs the default settings by passing
the `modelSettingsDefaultKwargs` keywords, raising `TypeError` when one of
them is not a generated field; then `cls(**config)` is tried, a `TypeError`
being converted to the required-keys `ValueError`; then the names are
derived and `_settings_attr["bettertransformer"]` is read, which raises
`KeyError` unless `bettertransformer` is a `ModelSettings` annotation. -/
def structure_settings (clsName : String) (config : PyDict) :
    Except PyError DerivedNames :=
  if "generation_class" ∈ keysD config then .error .valueErrorGenerationClass
  else if ¬ (settingsCtorOk modelSettingsDefaultKwargs = true) then .error .typeError
  else if ¬ (settingsCtorOk (keysD config) = true) then .error .valueErrorRequired
  else
    let nameType :=
      match lookupD config "name_type" with
      | some (PyVal.str t) => t
      | _ => "dasherize"
    let names := derive_names clsName nameType
    if "bettertransformer" ∈ modelSettingsKeys then .ok names
    else .error .keyError

/-- Claim C4 (code bug).  The `generation_class` reservation does raise a
`ValueError` as claimed, but a well-formed settings mapping with both
required keys non-empty is not accepted: `_ModelSettingsAttr.default()`
passes the keywords `use_pipeline`, `model_type` and `runtime`, which are
not `ModelSettings` annotations, so every declaration that reaches it dies
with a `TypeError` before any validation outcome the claim describes. -/
theorem structure_settings_code_bug :
    structure_settings "ModelAConfig"
        [("default_id", PyVal.str "org/model-a"),
         ("model_ids", PyVal.list [PyVal.str "org/model-a"])]
      = .error .typeError ∧
    settingsCtorOk modelSettingsDefaultKwargs = false ∧
    ("use_pipeline" : String) ∉ modelSettingsKeys ∧
    settingsCtorOk ["default_id", "model_ids"] = true ∧
    structure_settings "ModelAConfig"
        [("default_id", PyVal.str "org/model-a"),
         ("model_ids", PyVal.list [PyVal.str "org/model-a"]),
         ("generation_class", PyVal.none_)]
      = .error .valueErrorGenerationClass := by
  refine ⟨rfl, by decide, by decide, by decide, rfl⟩

/-- Claim C7 (code bug).  The naming pipeline of `structure_settings`
does send `ModelAConfig` under the `dasherize` convention to
`model_name = "model_a"`, `start_name = "model-a"` and
`service_name = "generated_model_a_service.py"`, but declaring the subtype
never produces them: `_ModelSettingsAttr.default()` raises `TypeError`
first (see `structure_settings`). -/
theorem model_a_names_code_bug :
    derive_names "ModelAConfig" "dasherize"
      = ⟨"model_a", "model-a", "generated_model_a_service.py"⟩ ∧
    structure_settings "ModelAConfig"
        [("default_id", PyVal.str "org/model-a"),
         ("model_ids", PyVal.list [PyVal.str "org/model-a", PyVal.str "org/model-b"]),
         ("name_type", PyVal.str "dasherize")]
      = .error .typeError := by
  constructor
  · show DerivedNames.mk _ _ _ = _
    have h1 : underscore (stripConfig "ModelAConfig") = "model_a" := by decide
    have h2 : dasherize "model_a" = "model-a" := by decide
    simp [derive_names, h1, h2, service_name_of]
  · rfl

/-! ### Backend availability probe (src/onediffusion/utils/import_utils.py) -/

/-- `ENV_VARS_TRUE_VALUES` (line 44). -/
def ENV_VARS_TRUE_VALUES : List String := ["1", "ON", "YES", "TRUE"]

/-- `ENV_VARS_TRUE_AND_AUTO_VALUES` (line 45). -/
def ENV_VARS_TRUE_AND_AUTO_VALUES : List String := ENV_VARS_TRUE_VALUES ++ ["AUTO"]

/-- The slice of the process environment the module reads. -/
structure ProcEnv where
  useTF : Option String
  useTorch : Option String

/-- The module-level state (lines 47-69): `USE_TF` and `USE_TORCH` are
read from the environment once, at import, defaulted to `"AUTO"` and
uppercased; `_torch_available` starts as whether `torch` is locatable. -/
structure ImportUtilsState where
  use_tf : String
  use_torch : String
  torch_available : Bool
deriving DecidableEq

/-- Module import (lines 47-64). -/
def importUtilsInit (env : ProcEnv) (torchInstalled : Bool) : ImportUtilsState :=
  { use_tf := pyUpper (env.useTF.getD "AUTO"),
    use_torch := pyUpper (env.useTorch.getD "AUTO"),
    torch_available := torchInstalled }

/-- `is_torch_available` (lines 72-83) as a transition on the module
global `_torch_available`: when the import-time flags allow torch and the
global is still true, the package metadata is re-checked
(`torchMetadataOk`) and a failure writes `False` back; when the flags
disallow torch the global is set to `False`; the updated global is
returned. -/
def is_torch_available (st : ImportUtilsState) (torchMetadataOk : Bool) :
    Bool × ImportUtilsState :=
  if st.use_torch ∈ ENV_VARS_TRUE_AND_AUTO_VALUES ∧ st.use_tf ∉ ENV_VARS_TRUE_VALUES then
    let avail := st.torch_available && torchMetadataOk
    (avail, { st with torch_available := avail })
  else
    (false, { st with torch_available := false })

/-- Two probe calls in one process.  The environments at call time are
parameters only to make their irrelevance expressible: the source reads
the environment exclusively at module import. -/
def torch_probe_twice (envAtImport _envAtCall1 _envAtCall2 : ProcEnv)
    (torchInstalled torchMetadataOk : Bool) : Bool × Bool :=
  let st0 := importUtilsInit envAtImport torchInstalled
  let r1 := is_torch_available st0 torchMetadataOk
  let r2 := is_torch_available r1.2 torchMetadataOk
  (r1.1, r2.1)

/-- The behaviour the claim describes: a probe that consults the process
environment current at the moment of the call. -/
def torch_probe_claimed (envNow : ProcEnv) (torchInstalled torchMetadataOk : Bool) : Bool :=
  (is_torch_available (importUtilsInit envNow torchInstalled) torchMetadataOk).1

/-- Claim C9 (corrected).  The probe does re-check package metadata on
every call while the flags allow torch, and its verdict latches (a second
call returns the same value); but the backend-selection flags are read
once at module import, so the call-time environment is irrelevant and a
flag change between two calls is not reflected. -/
theorem is_torch_available_spec (st : ImportUtilsState) (torchMetadataOk : Bool)
    (envAtImport envA envB : ProcEnv) (torchInstalled : Bool) :
    (st.use_torch ∈ ENV_VARS_TRUE_AND_AUTO_VALUES → st.use_tf ∉ ENV_VARS_TRUE_VALUES →
      (is_torch_available st torchMetadataOk).1 = (st.torch_available && torchMetadataOk)) ∧
    (st.use_tf ∈ ENV_VARS_TRUE_VALUES →
      (is_torch_available st torchMetadataOk).1 = false) ∧
    ((is_torch_available (is_torch_available st torchMetadataOk).2 torchMetadataOk).1
      = (is_torch_available st torchMetadataOk).1) ∧
    (torch_probe_twice envAtImport envA envB torchInstalled torchMetadataOk
      = torch_probe_twice envAtImport envB envA torchInstalled torchMetadataOk) := by
  refine ⟨?_, ?_, ?_, rfl⟩
  · intro h1 h2
    simp [is_torch_available, h1, h2]
  · intro h
    have : ¬ (st.use_torch ∈ ENV_VARS_TRUE_AND_AUTO_VALUES ∧
        st.use_tf ∉ ENV_VARS_TRUE_VALUES) := by
      intro hc
      exact hc.2 h
    simp [is_torch_available, this]
  · by_cases hc : st.use_torch ∈ ENV_VARS_TRUE_AND_AUTO_VALUES ∧
        st.use_tf ∉ ENV_VARS_TRUE_VALUES
    · simp [is_torch_available, hc, Bool.and_assoc]
    · simp [is_torch_available, hc]

/-- Witness for `is_torch_available_spec`: with `USE_TF=1` captured at
module load the probe returns false, and the probe with permissive flags
re-checks the metadata. -/
theorem is_torch_available_spec_witness :
    (("1" : String) ∈ ENV_VARS_TRUE_VALUES ∧
      (is_torch_available ⟨"1", "AUTO", true⟩ true).1 = false) ∧
    (("AUTO" : String) ∈ ENV_VARS_TRUE_AND_AUTO_VALUES ∧
      ("AUTO" : String) ∉ ENV_VARS_TRUE_VALUES ∧
      (is_torch_available ⟨"AUTO", "AUTO", true⟩ false).1 = (true && false)) :=
  ⟨⟨by decide,
      (is_torch_available_spec ⟨"1", "AUTO", true⟩ true ⟨none, none⟩ ⟨none, none⟩
          ⟨none, none⟩ true).2.1 (by decide)⟩,
    ⟨by decide, by decide,
      (is_torch_available_spec ⟨"AUTO", "AUTO", true⟩ false ⟨none, none⟩ ⟨none, none⟩
          ⟨none, none⟩ true).1 (by decide) (by decide)⟩⟩

/-- Claim C9, counterexample to the claim as stated: `USE_TF=1` holds at
module load and is removed from the environment before the second call; the
second call still returns false (the flag was captured at import and the
global has latched), while the claimed behaviour — reflecting the changed
flags — would return true. -/
theorem is_torch_available_latched_counterexample :
    (torch_probe_twice ⟨some "1", none⟩ ⟨some "1", none⟩ ⟨none, none⟩ true true).2 = false ∧
    torch_probe_claimed ⟨none, none⟩ true true = true ∧
    (false ≠ true) := ⟨rfl, rfl, by decide⟩

/-! ### `require_backends` (lines 168-181) -/

/-- Errors raised by the import-utility layer. -/
inductive ImportUtilsError where
  | importErr (msg : String) : ImportUtilsError
  | keyErr (backend : String) : ImportUtilsError
deriving DecidableEq

/-- `PYTORCH_IMPORT_ERROR_WITH_TF.format(name)` (lines 100-110): the
cross-reference message, which asserts that a TensorFlow installation was
found. -/
def pytorch_import_error_with_tf (name : String) : String :=
  name ++ " requires the PyTorch library but it was not found in your environment.\nHowever, we were able to find a TensorFlow installation. TensorFlow classes begin\nwith \"TF\", but are otherwise identically named to the PyTorch classes. This\nmeans that the TF equivalent of the class you tried to import would be \"TF" ++
    name ++ "\".\nIf you want to use TensorFlow, please use TF classes instead!\n\nIf you really do want to use PyTorch please go to\nhttps://pytorch.org/get-started/locally/ and follow the instructions that\nmatch your environment.\n"

/-- `PYTORCH_IMPORT_ERROR.format(name)` (lines 133-136): the plain
missing-backend message registered for `torch` in `BACKENDS_MAPPING`. -/
def pytorch_import_error (name : String) : String :=
  name ++ " requires the PyTorch library but it was not found in your environment.\nCheckout the instructions on the installation page: https://pytorch.org/get-started/locally/ and follow the\nones that match your environment. Please note that you may need to restart your runtime after installation.\n"

/-- `require_backends` (lines 168-181).  `BACKENDS_MAPPING` registers only
`torch`.  When `"torch"` is requested and `is_torch_available()` is false,
the TensorFlow cross-reference message is raised unconditionally — no
TensorFlow probe exists in the module, which is why the installed-or-not
state of TensorFlow (`_tfInstalled`) cannot influence the result.  A
requested backend outside the mapping raises `KeyError`; otherwise the
failing messages are collected, and `torch`, being available past the
first check, contributes none. -/
def require_backends (name : String) (backends : List String)
    (st : ImportUtilsState) (torchMetadataOk : Bool) (_tfInstalled : Bool) :
    Except ImportUtilsError Unit :=
  if "torch" ∈ backends ∧ (is_torch_available st torchMetadataOk).1 = false then
    .error (.importErr (pytorch_import_error_with_tf name))
  else
    match backends.find? (fun b => b ≠ "torch") with
    | some b => .error (.keyErr b)
    | none => .ok ()

/-- Claim C8 (code bug).  With torch missing and TensorFlow missing as
well, `require_backends` still raises the TensorFlow cross-reference
message (the availability of TensorFlow is not consulted at all), while
the claim — and the module's own `BACKENDS_MAPPING`, which registers the
plain message for torch — prescribe the plain missing-dependency message
in that situation; the two messages differ. -/
theorem require_backends_code_bug :
    require_backends "Foo" ["torch"] (importUtilsInit ⟨none, none⟩ false) true false
      = .error (.importErr (pytorch_import_error_with_tf "Foo")) ∧
    require_backends "Foo" ["torch"] (importUtilsInit ⟨none, none⟩ false) true true
      = .error (.importErr (pytorch_import_error_with_tf "Foo")) ∧
    pytorch_import_error_with_tf "Foo" ≠ pytorch_import_error "Foo" :=
  ⟨rfl, rfl, by decide⟩

/-! ### `model_construct_env` (lines 870-904, claim C5) -/

/-- The designated per-model config environment variable:
`ModelEnv.__new__` (import_utils.py lines 202-214) underscores the model
name and derives `_field_env_key(model_name, "CONFIG")`. -/
def modelEnvConfigVar (modelName : String) : String :=
  field_env_key (underscore modelName) "CONFIG" none

/-- `attr.evolve(env_struct, generation_config=gc, **overrides)`
(line 904): attrs re-invokes the custom `__init__` with every field's
current value, the overriding keywords replacing theirs and the explicit
`generation_config` dictionary replacing the sub-record; the extras slot
is not an attrs field, so it is not carried over. -/
def configEvolve (cls : ConfigClass) (inst : ConfigInstance) (gc : PyDict)
    (overrides : PyDict) : Except PyError ConfigInstance :=
  sdconfig_init cls (some gc) none (updateAll inst.fields overrides)

/-- `model_construct_env`, after the environment blob is resolved: the
blob is structured into an instance; an explicitly passed
`generation_config` must be a dictionary and claims every same-named
keyword (lines 891-902); without one, the keywords naming generation
fields are collected instead; the instance is then evolved. -/
def model_construct_env_go (cls : ConfigClass) (blob : PyVal) (attrs : PyDict) :
    Except PyError ConfigInstance :=
  (structure_sd_config cls blob).bind fun envStruct =>
    match lookupD attrs "generation_config" with
    | some (PyVal.dict g) =>
        configEvolve cls envStruct g
          ((attrs.filter (fun kv => kv.1 ≠ "generation_config")).filter
            (fun kv => !(decide (kv.1 ∈ keysD g))))
    | some _ => .error .runtimeExpectedDict
    | none =>
        configEvolve cls envStruct
          (attrs.filter (fun kv => decide (kv.1 ∈ cls.genKeys)))
          (attrs.filter (fun kv => !(decide (kv.1 ∈ cls.genKeys))))

/-- `SDConfig.model_construct_env` (lines 870-904).  Null-valued keywords
are dropped first.  The environment is summarised by `envBlob`: `none`
when the designated variable is unset, `some (.error ())` when it holds a
string that is not valid JSON — in which case the error names the
variable — and `some (.ok v)` when it parses to `v`. -/
def model_construct_env (cls : ConfigClass) (envBlob : Option (Except Unit PyVal))
    (attrs0 : PyDict) : Except PyError ConfigInstance :=
  let attrs := attrs0.filter (fun kv => !(isNoneV kv.2))
  match envBlob with
  | some (.error _) => .error (.runtimeJsonParse (modelEnvConfigVar cls.modelName))
  | some (.ok v) => model_construct_env_go cls v attrs
  | none => model_construct_env_go cls (.dict []) attrs

theorem mem_updateD (l : PyDict) (k : String) (v : PyVal) (kv : String × PyVal)
    (h : kv ∈ updateD l k v) : kv ∈ l ∨ kv = (k, v) := by
  unfold updateD at h
  rcases List.mem_append.mp h with h | h
  · exact Or.inl (List.mem_of_mem_filter h)
  · simp only [List.mem_singleton] at h
    exact Or.inr h

theorem mem_updateAll (base l : PyDict) (kv : String × PyVal)
    (h : kv ∈ updateAll base l) : kv ∈ base ∨ kv ∈ l := by
  induction l generalizing base with
  | nil => exact Or.inl h
  | cons kv0 rest ih =>
    have hstep : updateAll base (kv0 :: rest) = updateAll (updateD base kv0.1 kv0.2) rest := rfl
    rw [hstep] at h
    rcases ih _ h with h' | h'
    · rcases mem_updateD _ _ _ _ h' with h'' | h''
      · exact Or.inl h''
      · right
        rw [h'']
        simp
    · exact Or.inr (List.mem_cons_of_mem _ h')

theorem nodupKeys_updateD (l : PyDict) (k : String) (v : PyVal) (h : NodupKeys l) :
    NodupKeys (updateD l k v) := by
  unfold NodupKeys updateD keysD
  rw [List.map_append, List.nodup_append]
  refine ⟨List.Nodup.sublist (List.Sublist.map _ (List.filter_sublist l)) h, by simp, ?_⟩
  intro a ha hb
  simp only [List.map_cons, List.map_nil, List.mem_singleton] at hb
  subst hb
  obtain ⟨x, hx, hfx⟩ := List.mem_map.mp ha
  have := List.of_mem_filter hx
  simp [hfx] at this

theorem nodupKeys_updateAll (base l : PyDict) (h : NodupKeys base) :
    NodupKeys (updateAll base l) := by
  induction l generalizing base with
  | nil => exact h
  | cons kv rest ih => exact ih _ (nodupKeys_updateD _ _ _ h)

theorem entry_mem_of_lookupD (l : PyDict) (k : String) (v : PyVal)
    (h : lookupD l k = some v) : (k, v) ∈ l := by
  induction l with
  | nil => simp at h
  | cons kv rest ih =>
    obtain ⟨k', v'⟩ := kv
    by_cases hk : k' = k
    · subst hk
      simp at h
      subst h
      simp
    · simp only [lookupD_cons, hk, if_false] at h
      exact List.mem_cons_of_mem _ (ih h)

/-- What `attr.evolve` with an explicit generation dictionary produces:
the declared fields are the current values overlaid with the overriding
keywords, and the generation sub-record is rebuilt from the explicit
dictionary over the class defaults. -/
theorem configEvolve_lookup (cls : ConfigClass) (env : ConfigInstance) (gc ov : PyDict)
    (hcls : ClassWF cls) (henv : InstanceWF cls env)
    (hgc : ∀ k ∈ keysD gc, k ∈ cls.genKeys) (hgcnd : NodupKeys gc)
    (hovnd : NodupKeys ov)
    (hov : ∀ kv ∈ ov, kv.1 ∈ cls.acceptedKeys ∧ kv.1 ≠ "generation_config" ∧
      kv.1 ∉ cls.genKeys ∧ isNoneV kv.2 = false) :
    ∃ r, configEvolve cls env gc ov = .ok r ∧
      (∀ k, lookupD r.fields k =
        match lookupD ov k with
        | some v => some v
        | none => lookupD env.fields k) ∧
      (∀ k, lookupD r.generation k =
        match lookupD gc k with
        | some v => some v
        | none => lookupD cls.genDefaults k) ∧
      r.extras = [] := by
  obtain ⟨hga, hfd, hgd, hand, hgnd, hdisj⟩ := hcls
  obtain ⟨hf, hg, hnn⟩ := henv
  have hfmem : ∀ kv ∈ env.fields, kv.1 ∈ cls.acceptedKeys ∧ kv.1 ≠ "generation_config" := by
    intro kv hkv
    have hk : kv.1 ∈ keysD env.fields := List.mem_map.mpr ⟨kv, hkv, rfl⟩
    rw [hf, hfd] at hk
    have := List.mem_filter.mp hk
    exact ⟨this.1, by simpa using this.2⟩
  have hfnd : NodupKeys env.fields := by
    unfold NodupKeys
    rw [hf, hfd]
    exact List.Nodup.filter _ hand
  have hattrs_mem : ∀ kv ∈ updateAll env.fields ov,
      kv.1 ∈ cls.acceptedKeys ∧ kv.1 ∉ cls.genKeys ∧ isNoneV kv.2 = false ∧
        kv.1 ∉ keysD gc := by
    intro kv hkv
    have hbase : kv.1 ∉ cls.genKeys → kv.1 ∉ keysD gc := by
      intro hng hmem
      exact hng (hgc kv.1 hmem)
    rcases mem_updateAll _ _ _ hkv with h | h
    · have h1 := hfmem kv h
      have h2 : kv.1 ∉ cls.genKeys := hdisj kv.1 h1.1
      exact ⟨h1.1, h2, hnn kv h, hbase h2⟩
    · have h1 := hov kv h
      exact ⟨h1.1, h1.2.2.1, h1.2.2.2, hbase h1.2.2.1⟩
  have hattrsnd : NodupKeys (updateAll env.fields ov) := nodupKeys_updateAll _ _ hfnd
  have hclaimed : (updateAll env.fields ov).filter
      (fun kv => decide (kv.1 ∈ cls.genKeys)) = [] := by
    apply List.filter_eq_nil_iff.mpr
    intro kv hkv
    simp only [decide_eq_true_eq]
    exact (hattrs_mem kv hkv).2.1
  have hgin : initGenDict cls (some gc) (updateAll env.fields ov) = gc := by
    simp only [initGenDict]
    rw [hclaimed, pyMergeEntries_nil]
  have hlive : initLiveAttrs gc (updateAll env.fields ov) = updateAll env.fields ov := by
    apply List.filter_eq_self.mpr
    intro kv hkv
    have h := hattrs_mem kv hkv
    simp [h.2.2.1, h.2.2.2]
  have hextr : initExtras cls none (updateAll env.fields ov) = [] := by
    unfold initExtras
    have h1 : (updateAll env.fields ov).filter
        (fun kv => !(decide (kv.1 ∈ cls.acceptedKeys))) = [] := by
      apply List.filter_eq_nil_iff.mpr
      intro kv hkv
      simp only [Bool.not_eq_true', Bool.not_eq_false]
      exact decide_eq_true (hattrs_mem kv hkv).1
    rw [h1]
    simp
  have hattrs2 : (updateAll env.fields ov).filter
      (fun kv => !(decide (kv.1 ∈ keysD ([] : PyDict)))) = updateAll env.fields ov := by
    apply List.filter_eq_self.mpr
    intro kv hkv
    simp
  have hguard : gc.all (fun kv => decide (kv.1 ∈ cls.genKeys)) = true := by
    apply List.all_eq_true.mpr
    intro kv hkv
    simp only [decide_eq_true_eq]
    exact hgc kv.1 (List.mem_map.mpr ⟨kv, hkv, rfl⟩)
  have hok : configEvolve cls env gc ov
      = .ok ⟨updateAll cls.fieldDefaults (updateAll env.fields ov),
             updateAll cls.genDefaults gc, []⟩ := by
    unfold configEvolve
    simp only [sdconfig_init, hgin, hlive, hextr, hattrs2, hguard, if_true]
  refine ⟨_, hok, ?_, ?_, rfl⟩
  · intro k
    show lookupD (updateAll cls.fieldDefaults (updateAll env.fields ov)) k = _
    rw [lookupD_updateAll _ _ _ hattrsnd, lookupD_updateAll _ _ _ hovnd]
    cases ho : lookupD ov k with
    | some v => rfl
    | none =>
      cases he : lookupD env.fields k with
      | some w => rfl
      | none =>
        have hnm : k ∉ keysD env.fields := by
          intro hm
          have := (lookupD_isSome_iff_mem env.fields k).mpr hm
          rw [he] at this
          simp at this
        rw [hf] at hnm
        exact lookupD_eq_none_of_not_mem cls.fieldDefaults k hnm
  · intro k
    show lookupD (updateAll cls.genDefaults gc) k = _
    rw [lookupD_updateAll _ _ _ hgcnd]

/-- Claim C5 (corrected).  An unparsable blob raises an error naming the
designated config environment variable; an absent variable constructs
from the overrides alone (the empty blob); null-valued overrides are
ignored; and on a valid blob with an explicitly passed
`generation_config` dictionary, the result overlays the non-null scalar
overrides on the structured instance's declared fields, while the
generation sub-record is rebuilt from the explicit dictionary over the
class defaults — the blob's generation values are dropped, and the
explicit dictionary takes precedence over same-named scalar overrides,
which are discarded. -/
theorem model_construct_env_spec :
    (∀ (cls : ConfigClass) (ov : PyDict),
      model_construct_env cls (some (.error ())) ov
        = .error (.runtimeJsonParse (modelEnvConfigVar cls.modelName))) ∧
    modelEnvConfigVar "model_a" = "SDSERVER_MODEL_A_CONFIG" ∧
    (∀ (cls : ConfigClass) (ov : PyDict),
      model_construct_env cls none ov
        = model_construct_env cls (some (.ok (.dict []))) ov) ∧
    (∀ (cls : ConfigClass) (e : Option (Except Unit PyVal)) (ov : PyDict),
      model_construct_env cls e ov
        = model_construct_env cls e (ov.filter (fun kv => !(isNoneV kv.2)))) ∧
    (∀ (cls : ConfigClass) (blob : PyVal) (env : ConfigInstance) (g ov : PyDict),
      ClassWF cls →
      structure_sd_config cls blob = .ok env →
      InstanceWF cls env →
      NodupKeys ov →
      lookupD ov "generation_config" = some (PyVal.dict g) →
      NodupKeys g →
      (∀ k ∈ keysD g, k ∈ cls.genKeys) →
      (∀ kv ∈ ov, kv.1 = "generation_config" ∨ kv.1 ∈ keysD g ∨
        (kv.1 ∈ cls.acceptedKeys ∧ kv.1 ∉ cls.genKeys ∧ isNoneV kv.2 = false)) →
      ∃ r, model_construct_env cls (some (.ok blob)) ov = .ok r ∧
        (∀ k, k ≠ "generation_config" → k ∉ keysD g →
          lookupD r.fields k =
            match lookupD ov k with
            | some v => some v
            | none => lookupD env.fields k) ∧
        (∀ k, lookupD r.generation k =
          match lookupD g k with
          | some v => some v
          | none => lookupD cls.genDefaults k)) := by
  refine ⟨fun cls ov => rfl, by decide, fun cls ov => rfl, ?_, ?_⟩
  · intro cls e ov
    cases e with
    | none => simp [model_construct_env, List.filter_filter]
    | some x =>
      cases x with
      | error u => rfl
      | ok v => simp [model_construct_env, List.filter_filter]
  · intro cls blob env g ov hcls hstruct henv hovnd hg hgnd hgsub hov
    have hq0 : NodupKeys (ov.filter (fun kv => !(isNoneV kv.2))) :=
      nodupKeys_filter _ _ hovnd
    have hq1 : NodupKeys ((ov.filter (fun kv => !(isNoneV kv.2))).filter
        (fun kv => kv.1 ≠ "generation_config")) := nodupKeys_filter _ _ hq0
    have hlookattrs : lookupD (ov.filter (fun kv => !(isNoneV kv.2))) "generation_config"
        = some (PyVal.dict g) := by
      rw [lookupD_filter_of_nodup _ _ _ hovnd, hg]
      simp [isNoneV]
    have hstep : model_construct_env cls (some (.ok blob)) ov
        = configEvolve cls env g
            (((ov.filter (fun kv => !(isNoneV kv.2))).filter
              (fun kv => kv.1 ≠ "generation_config")).filter
              (fun kv => !(decide (kv.1 ∈ keysD g)))) := by
      simp only [model_construct_env, model_construct_env_go, hstruct, Except.bind,
        hlookattrs]
    have hov' : ∀ kv ∈ ((ov.filter (fun kv => !(isNoneV kv.2))).filter
        (fun kv => kv.1 ≠ "generation_config")).filter
        (fun kv => !(decide (kv.1 ∈ keysD g))),
        kv.1 ∈ cls.acceptedKeys ∧ kv.1 ≠ "generation_config" ∧
          kv.1 ∉ cls.genKeys ∧ isNoneV kv.2 = false := by
      intro kv hkv
      have h2 : kv.1 ∉ keysD g := by simpa using List.of_mem_filter hkv
      have hkv1 := List.mem_of_mem_filter hkv
      have h3 : kv.1 ≠ "generation_config" := by simpa using List.of_mem_filter hkv1
      have hkv2 := List.mem_of_mem_filter hkv1
      have h4 : isNoneV kv.2 = false := by simpa using List.of_mem_filter hkv2
      have hkvo := List.mem_of_mem_filter hkv2
      rcases hov kv hkvo with h | h | h
      · exact absurd h h3
      · exact absurd h h2
      · exact ⟨h.1, h3, h.2.1, h4⟩
    have hov'nd : NodupKeys (((ov.filter (fun kv => !(isNoneV kv.2))).filter
        (fun kv => kv.1 ≠ "generation_config")).filter
        (fun kv => !(decide (kv.1 ∈ keysD g)))) := nodupKeys_filter _ _ hq1
    obtain ⟨r, hre, hrf, hrg, hrx⟩ := configEvolve_lookup cls env g
      (((ov.filter (fun kv => !(isNoneV kv.2))).filter
        (fun kv => kv.1 ≠ "generation_config")).filter
        (fun kv => !(decide (kv.1 ∈ keysD g))))
      hcls henv hgsub hgnd hov'nd hov'
    refine ⟨r, hstep.trans hre, ?_, hrg⟩
    intro k hk1 hk2
    rw [hrf k]
    have heq : lookupD (((ov.filter (fun kv => !(isNoneV kv.2))).filter
        (fun kv => kv.1 ≠ "generation_config")).filter
        (fun kv => !(decide (kv.1 ∈ keysD g)))) k = lookupD ov k := by
      cases hlk : lookupD ov k with
      | none =>
        have h0 : lookupD (ov.filter (fun kv => !(isNoneV kv.2))) k = none := by
          rw [lookupD_filter_of_nodup _ _ _ hovnd, hlk]
        have h1 : lookupD ((ov.filter (fun kv => !(isNoneV kv.2))).filter
            (fun kv => kv.1 ≠ "generation_config")) k = none := by
          rw [lookupD_filter_of_nodup _ _ _ hq0, h0]
        rw [lookupD_filter_of_nodup _ _ _ hq1, h1]
      | some v =>
        have hmem := entry_mem_of_lookupD ov k v hlk
        rcases hov (k, v) hmem with h | h | h
        · exact absurd h hk1
        · exact absurd h hk2
        · have h0 : lookupD (ov.filter (fun kv => !(isNoneV kv.2))) k = some v := by
            rw [lookupD_filter_of_nodup _ _ _ hovnd, hlk]
            simp [h.2.2]
          have h1 : lookupD ((ov.filter (fun kv => !(isNoneV kv.2))).filter
              (fun kv => kv.1 ≠ "generation_config")) k = some v := by
            rw [lookupD_filter_of_nodup _ _ _ hq0, h0]
            simp [hk1]
          rw [lookupD_filter_of_nodup _ _ _ hq1, h1]
          simp [hk2]
    rw [heq]

/-- Claim C5, counterexample to the claim as stated: the blob carries
`generation_config.top_k = 7` and no overrides are given, yet the
constructed instance's `top_k` is the class default `5`: the final
`attr.evolve` replaces the generation sub-record with the (here empty)
override dictionary, so the blob's generation values do not survive —
while merely structuring the same blob keeps `top_k = 7`. -/
theorem model_construct_env_counterexample :
    model_construct_env
        ⟨"m", ["temperature", "generation_config"], [("temperature", PyVal.int 1)],
          ["top_k"], [("top_k", PyVal.int 5)]⟩
        (some (.ok (.dict [("generation_config", PyVal.dict [("top_k", PyVal.int 7)])])))
        []
      = .ok ⟨[("temperature", PyVal.int 1)], [("top_k", PyVal.int 5)], []⟩ ∧
    structure_sd_config
        ⟨"m", ["temperature", "generation_config"], [("temperature", PyVal.int 1)],
          ["top_k"], [("top_k", PyVal.int 5)]⟩
        (.dict [("generation_config", PyVal.dict [("top_k", PyVal.int 7)])])
      = .ok ⟨[("temperature", PyVal.int 1)], [("top_k", PyVal.int 7)], []⟩ ∧
    some (PyVal.int 5) ≠ some (PyVal.int 7) := by
  refine ⟨?_, ?_, by simp⟩
  · simp [model_construct_env, model_construct_env_go, structure_sd_config,
      structureClsAttrs, structureRest, sdconfig_init, initGenDict, initLiveAttrs,
      initExtras, isNoneV, configEvolve, updateAll, updateD, keysD, Except.bind]
  · simp [structure_sd_config, structureClsAttrs, structureRest, sdconfig_init,
      initGenDict, initLiveAttrs, initExtras, isNoneV, updateAll, updateD, keysD]

/-- Witness for `model_construct_env_spec`: blob with `temperature = 3`
and `generation_config.top_k = 7`, overrides with an explicit
`generation_config` of `top_k = 8`, a same-named scalar `top_k = 9` (to be
discarded) and `temperature = 4`. -/
theorem model_construct_env_spec_witness :
    ∃ r, model_construct_env
        ⟨"m", ["temperature", "generation_config"], [("temperature", PyVal.int 1)],
          ["top_k"], [("top_k", PyVal.int 5)]⟩
        (some (.ok (.dict [("temperature", PyVal.int 3),
          ("generation_config", PyVal.dict [("top_k", PyVal.int 7)])])))
        [("generation_config", PyVal.dict [("top_k", PyVal.int 8)]),
         ("top_k", PyVal.int 9), ("temperature", PyVal.int 4)]
      = .ok r ∧
      (∀ k, k ≠ "generation_config" → k ∉ keysD [("top_k", PyVal.int 8)] →
        lookupD r.fields k =
          match lookupD [("generation_config", PyVal.dict [("top_k", PyVal.int 8)]),
            ("top_k", PyVal.int 9), ("temperature", PyVal.int 4)] k with
          | some v => some v
          | none => lookupD (ConfigInstance.mk [("temperature", PyVal.int 3)]
              [("top_k", PyVal.int 7)] []).fields k) ∧
      (∀ k, lookupD r.generation k =
        match lookupD [("top_k", PyVal.int 8)] k with
        | some v => some v
        | none => lookupD (ConfigClass.mk "m" ["temperature", "generation_config"]
            [("temperature", PyVal.int 1)] ["top_k"] [("top_k", PyVal.int 5)]).genDefaults k) :=
  (model_construct_env_spec).2.2.2.2
    ⟨"m", ["temperature", "generation_config"], [("temperature", PyVal.int 1)],
      ["top_k"], [("top_k", PyVal.int 5)]⟩
    (.dict [("temperature", PyVal.int 3),
      ("generation_config", PyVal.dict [("top_k", PyVal.int 7)])])
    ⟨[("temperature", PyVal.int 3)], [("top_k", PyVal.int 7)], []⟩
    [("top_k", PyVal.int 8)]
    [("generation_config", PyVal.dict [("top_k", PyVal.int 8)]),
     ("top_k", PyVal.int 9), ("temperature", PyVal.int 4)]
    (by decide)
    (by simp [structure_sd_config, structureClsAttrs, structureRest, sdconfig_init,
      initGenDict, initLiveAttrs, initExtras, isNoneV, updateAll, updateD, keysD])
    (by decide) (by decide) rfl (by decide) (by decide) (by decide)
